import Mathlib

/-!
Shallow embedding of the QuickFix request handler (api/generate.js): JSON
values, a strict JSON parser modelling JSON.parse, the markdown-fence
cleanup, and the HTTP handler with its response bodies.
-/

namespace QuickFix

/-- JSON values as produced by JSON.parse. Numbers are modelled exactly as
rationals, which is adequate for every input considered here. Objects keep
their key/value pairs in order; lookup takes the last binding of a key,
matching the last-wins semantics of JSON.parse. -/
inductive Json where
  | null : Json
  | bool (b : Bool) : Json
  | num (q : ℚ) : Json
  | str (s : String) : Json
  | arr (elems : List Json) : Json
  | obj (fields : List (String × Json)) : Json

/-- Lookup of a key in the field list of an object, last binding wins
(the object JSON.parse builds retains only the last duplicate key). -/
def lookupLast (kvs : List (String × Json)) (k : String) : Option Json :=
  match kvs with
  | [] => none
  | (k2, v) :: rest =>
    match lookupLast rest k with
    | some r => some r
    | none => if k2 = k then some v else none

/-- JavaScript truthiness of a JSON value (null, false, 0 and "" are falsy;
arrays and objects are always truthy). -/
def jsTruthy : Json → Bool
  | .null => false
  | .bool b => b
  | .num q => if q = 0 then false else true
  | .str s => if s = "" then false else true
  | .arr _ => true
  | .obj _ => true

/-- Truthiness of a possibly-undefined JavaScript value (undefined is falsy). -/
def optTruthy : Option Json → Bool
  | none => false
  | some j => jsTruthy j

/-- Property read `j[f]` for the non-null values this handler reads
properties from: objects yield the bound value, every other value yields
undefined for the property names used by the handler. The null case (which
throws a TypeError in JavaScript) is handled separately at the use site. -/
def getFieldOpt (j : Json) (f : String) : Option Json :=
  match j with
  | .obj kvs => lookupLast kvs f
  | _ => none

/-- Whether a JSON value is an array (Array.isArray). -/
def isArrJ : Json → Bool
  | .arr _ => true
  | _ => false

/-! JSON parser, modelling strict JSON.parse: insignificant whitespace is
space, tab, newline, carriage return; literals, double-quoted strings with
escapes, numbers, arrays and objects. Recursion is by fuel; the top-level
entry point supplies fuel that is always sufficient. -/

def isJsonWs (c : Char) : Bool :=
  c = ' ' || c = '\t' || c = '\n' || c = '\r'

def skipWs : List Char → List Char
  | [] => []
  | c :: cs => if isJsonWs c then skipWs cs else c :: cs

def hexDigitVal (c : Char) : Option Nat :=
  if '0' ≤ c ∧ c ≤ '9' then some (c.toNat - 48)
  else if 'a' ≤ c ∧ c ≤ 'f' then some (c.toNat - 87)
  else if 'A' ≤ c ∧ c ≤ 'F' then some (c.toNat - 55)
  else none

/-- Body of a JSON string after the opening quote: ordinary characters,
escape sequences, and the closing quote. Unescaped control characters are
rejected, as in strict JSON. -/
def parseStrChars : Nat → List Char → List Char → Option (String × List Char)
  | 0, _, _ => none
  | fuel + 1, acc, cs =>
    match cs with
    | [] => none
    | '"' :: r => some (String.mk acc.reverse, r)
    | '\\' :: e :: r =>
      match e with
      | '"' => parseStrChars fuel ('"' :: acc) r
      | '\\' => parseStrChars fuel ('\\' :: acc) r
      | '/' => parseStrChars fuel ('/' :: acc) r
      | 'b' => parseStrChars fuel ('\x08' :: acc) r
      | 'f' => parseStrChars fuel ('\x0c' :: acc) r
      | 'n' => parseStrChars fuel ('\n' :: acc) r
      | 'r' => parseStrChars fuel ('\r' :: acc) r
      | 't' => parseStrChars fuel ('\t' :: acc) r
      | 'u' =>
        match r with
        | a :: b :: c :: d :: r2 =>
          match hexDigitVal a, hexDigitVal b, hexDigitVal c, hexDigitVal d with
          | some x, some y, some z, some w =>
            parseStrChars fuel (Char.ofNat (((x * 16 + y) * 16 + z) * 16 + w) :: acc) r2
          | _, _, _, _ => none
        | _ => none
      | _ => none
    | c :: r => if c.toNat < 0x20 then none else parseStrChars fuel (c :: acc) r

def digitsToNat (ds : List Char) : Nat :=
  ds.foldl (fun a c => a * 10 + (c.toNat - 48)) 0

def takeDigits : List Char → (List Char × List Char)
  | [] => ([], [])
  | c :: r =>
    if '0' ≤ c ∧ c ≤ '9' then
      let p := takeDigits r
      (c :: p.1, p.2)
    else ([], c :: r)

/-- Exponent part of a JSON number, after the e/E marker. -/
def parseExpPart (cs : List Char) : Option (Int × List Char) :=
  let p : (Int × List Char) :=
    match cs with
    | '+' :: r => (1, r)
    | '-' :: r => (-1, r)
    | r => (1, r)
  match takeDigits p.2 with
  | ([], _) => none
  | (ds, rest) => some (p.1 * (digitsToNat ds : Int), rest)

/-- Exact rational value of a JSON number from its parts. -/
def ratOfParts (neg : Bool) (ip fp : List Char) (e : Int) : ℚ :=
  let m : ℚ := (digitsToNat ip : ℚ) + (digitsToNat fp : ℚ) / (10 : ℚ) ^ fp.length
  let v : ℚ := m * (10 : ℚ) ^ e
  if neg then -v else v

/-- JSON number grammar: optional minus, integer part without leading
zeros, optional fraction, optional exponent. -/
def parseNumber (cs : List Char) : Option (ℚ × List Char) :=
  let sp : (Bool × List Char) :=
    match cs with
    | '-' :: r => (true, r)
    | r => (false, r)
  match takeDigits sp.2 with
  | ([], _) => none
  | (ip, cs2) =>
    if ip.head? = some '0' ∧ 1 < ip.length then none
    else
      let contFrac : List Char → List Char → Option (ℚ × List Char) := fun fp cs3 =>
        match cs3 with
        | 'e' :: r =>
          match parseExpPart r with
          | some (ex, rest) => some (ratOfParts sp.1 ip fp ex, rest)
          | none => none
        | 'E' :: r =>
          match parseExpPart r with
          | some (ex, rest) => some (ratOfParts sp.1 ip fp ex, rest)
          | none => none
        | rest => some (ratOfParts sp.1 ip fp 0, rest)
      match cs2 with
      | '.' :: r =>
        match takeDigits r with
        | ([], _) => none
        | (fp, cs3) => contFrac fp cs3
      | rest => contFrac [] rest

mutual

/-- One JSON value, leading whitespace allowed; returns the value and the
unconsumed remainder. -/
def parseValue : Nat → List Char → Option (Json × List Char)
  | 0, _ => none
  | fuel + 1, cs =>
    match skipWs cs with
    | [] => none
    | 'n' :: 'u' :: 'l' :: 'l' :: r => some (.null, r)
    | 't' :: 'r' :: 'u' :: 'e' :: r => some (.bool true, r)
    | 'f' :: 'a' :: 'l' :: 's' :: 'e' :: r => some (.bool false, r)
    | '"' :: r =>
      match parseStrChars fuel [] r with
      | some (s, rest) => some (.str s, rest)
      | none => none
    | '[' :: r =>
      match skipWs r with
      | ']' :: rest => some (.arr [], rest)
      | r2 =>
        match parseElems fuel r2 with
        | some (vs, rest) => some (.arr vs, rest)
        | none => none
    | '{' :: r =>
      match skipWs r with
      | '}' :: rest => some (.obj [], rest)
      | r2 =>
        match parseMembers fuel r2 with
        | some (ms, rest) => some (.obj ms, rest)
        | none => none
    | c :: r =>
      if c = '-' ∨ ('0' ≤ c ∧ c ≤ '9') then
        match parseNumber (c :: r) with
        | some (q, rest) => some (.num q, rest)
        | none => none
      else none

/-- Nonempty comma-separated array elements up to the closing bracket. -/
def parseElems : Nat → List Char → Option (List Json × List Char)
  | 0, _ => none
  | fuel + 1, cs =>
    match parseValue fuel cs with
    | none => none
    | some (v, cs1) =>
      match skipWs cs1 with
      | ',' :: cs2 =>
        match parseElems fuel cs2 with
        | some (vs, rest) => some (v :: vs, rest)
        | none => none
      | ']' :: cs2 => some ([v], cs2)
      | _ => none

/-- Nonempty comma-separated object members up to the closing brace. -/
def parseMembers : Nat → List Char → Option (List (String × Json) × List Char)
  | 0, _ => none
  | fuel + 1, cs =>
    match skipWs cs with
    | '"' :: cs1 =>
      match parseStrChars fuel [] cs1 with
      | none => none
      | some (k, cs2) =>
        match skipWs cs2 with
        | ':' :: cs3 =>
          match parseValue fuel cs3 with
          | none => none
          | some (v, cs4) =>
            match skipWs cs4 with
            | ',' :: cs5 =>
              match parseMembers fuel cs5 with
              | some (ms, rest) => some ((k, v) :: ms, rest)
              | none => none
            | '}' :: cs5 => some ([(k, v)], cs5)
            | _ => none
        | _ => none
    | _ => none

end

/-- Strict JSON.parse over a whole string: one value surrounded by optional
whitespace, nothing else. The fuel bound exceeds any possible recursion
depth for the given input. -/
def jsonParse (s : String) : Option Json :=
  let cs := s.data
  match parseValue (4 * cs.length + 8) cs with
  | some (v, rest) => if skipWs rest = [] then some v else none
  | none => none

/-! Cleanup applied to the raw upstream text before JSON.parse, modelling
`text.replace(/```json\n?/g, "").replace(/```\n?/g, "").trim()`. -/

/-- Whitespace for JavaScript String.prototype.trim. -/
def isJsTrimWs (c : Char) : Bool :=
  c.toNat = 0x20 || c.toNat = 0x9 || c.toNat = 0xa || c.toNat = 0xd ||
  c.toNat = 0xb || c.toNat = 0xc || c.toNat = 0xa0 || c.toNat = 0x1680 ||
  (0x2000 ≤ c.toNat && c.toNat ≤ 0x200a) || c.toNat = 0x2028 ||
  c.toNat = 0x2029 || c.toNat = 0x202f || c.toNat = 0x205f ||
  c.toNat = 0x3000 || c.toNat = 0xfeff

def jsTrimLeft : List Char → List Char
  | [] => []
  | c :: r => if isJsTrimWs c then jsTrimLeft r else c :: r

def jsTrim (cs : List Char) : List Char :=
  ((jsTrimLeft (jsTrimLeft cs).reverse)).reverse

/-- Global replacement of a literal pattern plus an optional trailing
newline by the empty string, scanning left to right without rescanning the
junction, as a global regex replace does. Fuel one past the input length is
always sufficient for a nonempty pattern. -/
def remFence (pat : List Char) : Nat → List Char → List Char
  | 0, cs => cs
  | fuel + 1, cs =>
    if pat.isPrefixOf cs then
      match cs.drop pat.length with
      | '\n' :: r => remFence pat fuel r
      | r => remFence pat fuel r
    else
      match cs with
      | [] => []
      | c :: r => c :: remFence pat fuel r

def remFenceAll (pat : List Char) (cs : List Char) : List Char :=
  remFence pat (cs.length + 1) cs

/-- The cleanup the handler applies to the raw upstream text: strip ```json fences,
then bare ``` fences, then trim. -/
def cleanText (t : String) : String :=
  String.mk (jsTrim (remFenceAll ("```".data) (remFenceAll ("```json".data) t.data)))

/-- Replacement of the first occurrence of a literal pattern by the empty
string, modelling the non-global `String.prototype.replace`. -/
def replaceFirst (pat : List Char) : List Char → List Char
  | [] => []
  | c :: r =>
    if pat.isPrefixOf (c :: r) then List.drop pat.length (c :: r)
    else c :: replaceFirst pat r

/-- The `authorization?.replace("Bearer ", "")` step of the handler. -/
def stripBearer (s : String) : String :=
  String.mk (replaceFirst ("Bearer ".data) s.data)

/-! Transport-level model of the request, the process configuration, and
the upstream completion outcome. Header and query values are strings when
present; an environment variable or header that is absent is `none`. -/

structure HeadersT where
  x_api_key : Option String
  authorization : Option String

structure QueryT where
  api_key : Option String
  prompt : Option String
  q : Option String

structure BodyT where
  prompt : Option String

structure Request where
  method : String
  headers : HeadersT
  query : QueryT
  body : BodyT

structure Config where
  API_KEY : Option String
  GEMINI_API_KEY : Option String

/-- What the upstream completion returns when it does not throw: the
response text and the optional prompt-feedback block reason. -/
structure UpstreamResponse where
  text : String
  blockReason : Option String

/-- The HTTP reply of the handler: a status code and a JSON body. -/
structure Response where
  status : Nat
  body : Json

/-- Truthiness of a possibly-undefined string value. -/
def strTruthy : Option String → Bool
  | none => false
  | some s => if s = "" then false else true

/-- JavaScript `a || b` on possibly-undefined strings. -/
def jsOrOpt (a b : Option String) : Option String :=
  if strTruthy a then a else b

/-- JavaScript `o || d` where `o` is a possibly-undefined JSON value and
`d` a JSON default. -/
def jsOrJ (o : Option Json) (d : Json) : Json :=
  match o with
  | some v => if jsTruthy v then v else d
  | none => d

/-- `Array.isArray(v) ? v : []` on a possibly-undefined value. -/
def asArr (o : Option Json) : Json :=
  match o with
  | some (.arr xs) => .arr xs
  | _ => .arr []

/-- The credential the caller provided:
`req.headers["x-api-key"] || req.headers["authorization"]?.replace("Bearer ", "") || req.query.api_key`. -/
def providedApiKey (req : Request) : Option String :=
  jsOrOpt req.headers.x_api_key
    (jsOrOpt (Option.map stripBearer req.headers.authorization) req.query.api_key)

/-- The user prompt: `req.body.prompt` for POST, `req.query.prompt || req.query.q`
for GET. -/
def extractPrompt (req : Request) : Option String :=
  if req.method = "POST" then req.body.prompt
  else if req.method = "GET" then jsOrOpt req.query.prompt req.query.q
  else none

def MODEL_ID : String := "gemini-2.5-flash-preview-05-20"

/-! The response bodies, verbatim from the source. -/

def resp405 : Response :=
  ⟨405, .obj [("error", .str "Method not allowed. Use GET or POST.")]⟩

def resp500key : Response :=
  ⟨500, .obj [("error", .str "API_KEY is not configured on server.")]⟩

def resp401 : Response :=
  ⟨401, .obj [("error", .str "API key is required."),
    ("methods", .obj
      [("POST", .str "Provide in \x27x-api-key\x27 header or \x27Authorization: Bearer <key>\x27 header"),
       ("GET", .str "Provide in \x27api_key\x27 query parameter, \x27x-api-key\x27 header, or \x27Authorization: Bearer <key>\x27 header")])]⟩

def resp403 : Response :=
  ⟨403, .obj [("error", .str "Invalid API key.")]⟩

def resp500gemini : Response :=
  ⟨500, .obj [("error", .str "GEMINI_API_KEY is not configured.")]⟩

def resp400usage : Response :=
  ⟨400, .obj [("error", .str "Prompt is required."),
    ("usage", .obj
      [("POST", .str "Include \x27prompt\x27 in request body JSON"),
       ("GET", .str "Include \x27prompt\x27 or \x27q\x27 as query parameter")])]⟩

def blockResp (reason : String) : Response :=
  ⟨400, .obj [("success", .bool false),
    ("error", .str "Content generation blocked"),
    ("reason", .str reason)]⟩

def catchResp (msg : String) : Response :=
  ⟨500, .obj [("success", .bool false),
    ("error", .str "Failed to generate response"),
    ("details", .str msg)]⟩

def mkMeta (now : String) (extra : List (String × Json)) : Json :=
  .obj ([("timestamp", .str now), ("model", .str MODEL_ID)] ++ extra)

/-- The degraded body returned when the cleaned text is not valid JSON. -/
def parseFailResp (text now : String) : Response :=
  ⟨200, .obj [("success", .bool true),
    ("data", .obj
      [("title", .str "QuickFix Response"),
       ("summary", .str "Generated response"),
       ("content", .str text),
       ("steps", .arr []),
       ("tips", .arr []),
       ("timeEstimate", .str "Unknown"),
       ("difficulty", .str "unknown")]),
    ("metadata", mkMeta now [("parseError", .str "Response was not valid JSON")])]⟩

/-- The per-field fallback body returned when required fields are missing. -/
def missingResp (parsed : Json) (text now : String) (missing : List String) : Response :=
  ⟨200, .obj [("success", .bool true),
    ("data", .obj
      [("title", jsOrJ (getFieldOpt parsed "title") (.str "QuickFix Response")),
       ("summary", jsOrJ (getFieldOpt parsed "summary") (.str "Generated response")),
       ("steps", asArr (getFieldOpt parsed "steps")),
       ("tips", asArr (getFieldOpt parsed "tips")),
       ("timeEstimate", jsOrJ (getFieldOpt parsed "timeEstimate") (.str "Unknown")),
       ("difficulty", jsOrJ (getFieldOpt parsed "difficulty") (.str "unknown")),
       ("content", .str text)]),
    ("metadata", mkMeta now
      [("warning", .str ("Missing fields: " ++ String.intercalate ", " missing))])]⟩

/-- The `steps?.length || 0` step count of the success metadata. -/
def stepCountOf (o : Option Json) : ℚ :=
  match o with
  | some (.arr xs) => (xs.length : ℚ)
  | some (.str s) => (s.length : ℚ)
  | _ => 0

/-- The fully structured success body. -/
def successResp (parsed : Json) (now : String) : Response :=
  ⟨200, .obj [("success", .bool true),
    ("data", .obj
      [("title", (getFieldOpt parsed "title").getD .null),
       ("summary", (getFieldOpt parsed "summary").getD .null),
       ("steps", (getFieldOpt parsed "steps").getD .null),
       ("tips", jsOrJ (getFieldOpt parsed "tips") (.arr [])),
       ("timeEstimate", jsOrJ (getFieldOpt parsed "timeEstimate") (.str "Unknown")),
       ("difficulty", jsOrJ (getFieldOpt parsed "difficulty") (.str "unknown"))]),
    ("metadata", mkMeta now [("stepCount", .num (stepCountOf (getFieldOpt parsed "steps")))])]⟩

def requiredFields : List String := ["title", "summary", "steps"]

/-- `requiredFields.filter((field) => !parsedResponse[field])`. -/
def requiredMissing (parsed : Json) : List String :=
  requiredFields.filter (fun f => ! optTruthy (getFieldOpt parsed f))

/-- The TypeError message V8 raises for a property read on null. -/
def nullFieldMsg (f : String) : String :=
  "Cannot read properties of null (reading \x27" ++ f ++ "\x27)"

/-- Whether a JSON value is null (a property read on it throws). -/
def isNullJ : Json → Bool
  | .null => true
  | _ => false

/-- The steps the handler takes after a successful JSON.parse: the required-field
filter (which throws on a null parse result, caught by the outer handler),
then either the per-field fallback or the fully structured response. -/
def afterParse (parsed : Json) (text now : String) : Except String Response :=
  if isNullJ parsed then .error (nullFieldMsg "title")
  else if 0 < (requiredMissing parsed).length then
    .ok (missingResp parsed text now (requiredMissing parsed))
  else .ok (successResp parsed now)

/-- The handler from the JSON.parse attempt onwards. -/
def parseStage (text now : String) : Except String Response :=
  match jsonParse (cleanText text) with
  | none => .ok (parseFailResp text now)
  | some p => afterParse p text now

/-- The body of the try block once the upstream has answered:
the empty-text-with-block-reason short circuit, then parsing. -/
def tryStage (r : UpstreamResponse) (now : String) : Except String Response :=
  if r.text = "" ∧ strTruthy r.blockReason then .ok (blockResp (r.blockReason.getD ""))
  else parseStage r.text now

/-- The catch clause: any exception becomes the fixed 500 body. -/
def exceptToResp : Except String Response → Response
  | .ok r => r
  | .error m => catchResp m

/-- The try/catch around composition and invocation: an upstream throw and
a throw inside the try body land in the same catch clause. -/
def handleUpstream (up : Except String UpstreamResponse) (now : String) : Response :=
  match up with
  | .error msg => catchResp msg
  | .ok r => exceptToResp (tryStage r now)

/-- The handler after authentication has passed: the GEMINI_API_KEY
configuration check, prompt extraction, then the upstream invocation. -/
def postAuth (cfg : Config) (req : Request) (up : Except String UpstreamResponse)
    (now : String) : Response :=
  if ! strTruthy cfg.GEMINI_API_KEY then resp500gemini
  else if ! strTruthy (extractPrompt req) then resp400usage
  else handleUpstream up now

/-- The request handler of api/generate.js. `up` is the outcome of the
upstream completion call (a thrown error message or a response), `now` the
timestamp string the handler would embed. -/
def handler (cfg : Config) (req : Request) (up : Except String UpstreamResponse)
    (now : String) : Response :=
  if req.method ≠ "POST" ∧ req.method ≠ "GET" then resp405
  else if ! strTruthy cfg.API_KEY then resp500key
  else if ! strTruthy (providedApiKey req) then resp401
  else if providedApiKey req ≠ cfg.API_KEY then resp403
  else postAuth cfg req up now

/-! Accessors used to state properties of responses. -/

/-- Field of the `data` object of a response body. -/
def dataField (r : Response) (k : String) : Option Json :=
  match getFieldOpt r.body "data" with
  | some d => getFieldOpt d k
  | none => none

/-- Field of the `metadata` object of a response body. -/
def metaField (r : Response) (k : String) : Option Json :=
  match getFieldOpt r.body "metadata" with
  | some d => getFieldOpt d k
  | none => none

/-- The hypotheses under which a request reaches the upstream invocation:
valid method, configured caller credential, credential provided and
matching, configured upstream credential, and a truthy prompt. -/
def authOk (cfg : Config) (req : Request) : Prop :=
  (req.method = "GET" ∨ req.method = "POST") ∧
  strTruthy cfg.API_KEY = true ∧
  strTruthy (providedApiKey req) = true ∧
  providedApiKey req = cfg.API_KEY ∧
  strTruthy cfg.GEMINI_API_KEY = true ∧
  strTruthy (extractPrompt req) = true

/-! Helper lemmas shared by the claim theorems. -/

/-- Under the authentication and prompt hypotheses, the handler is exactly
the upstream stage. -/
theorem handler_reaches (cfg : Config) (req : Request)
    (up : Except String UpstreamResponse) (now : String) (h : authOk cfg req) :
    handler cfg req up now = handleUpstream up now := by
  obtain ⟨hm, hk, hp, he, hg, hpr⟩ := h
  unfold handler postAuth
  rcases hm with hm | hm <;> simp [hm, hk, hp, he, hg, hpr]

/-- A try-block result that is not a throw has status 200 or 400. -/
theorem tryStage_ok_status (r : UpstreamResponse) (now : String) (resp : Response)
    (h : tryStage r now = .ok resp) : resp.status = 200 ∨ resp.status = 400 := by
  unfold tryStage parseStage afterParse at h
  split at h
  · cases h
    simp [blockResp]
  · split at h
    · cases h
      simp [parseFailResp]
    · split at h
      · cases h
      · split at h
        · cases h
          simp [missingResp]
        · cases h
          simp [successResp]

/-- Every response of the upstream stage has status 200, 400 or 500. -/
theorem handleUpstream_status (up : Except String UpstreamResponse) (now : String) :
    (handleUpstream up now).status = 200 ∨ (handleUpstream up now).status = 400 ∨
    (handleUpstream up now).status = 500 := by
  unfold handleUpstream
  cases up with
  | error m => simp [catchResp]
  | ok r =>
    cases h : tryStage r now with
    | error m => simp [exceptToResp, h, catchResp]
    | ok resp =>
      rcases tryStage_ok_status r now resp h with h2 | h2 <;>
        simp [exceptToResp, h, h2]

/-- Every response of the post-authentication stage has status 200, 400 or
500; in particular it is never 401 or 403. -/
theorem postAuth_status (cfg : Config) (req : Request)
    (up : Except String UpstreamResponse) (now : String) :
    (postAuth cfg req up now).status = 200 ∨ (postAuth cfg req up now).status = 400 ∨
    (postAuth cfg req up now).status = 500 := by
  unfold postAuth
  split
  · simp [resp500gemini]
  · split
    · simp [resp400usage]
    · exact handleUpstream_status up now

/-- Removal of every binding of a key from the field list of an object. -/
def eraseAllKey (f : String) : List (String × Json) → List (String × Json)
  | [] => []
  | (k, v) :: r => if k = f then eraseAllKey f r else (k, v) :: eraseAllKey f r

theorem lookupLast_eraseAllKey_self (f : String) (kvs : List (String × Json)) :
    lookupLast (eraseAllKey f kvs) f = none := by
  induction kvs with
  | nil => rfl
  | cons kv r ih =>
    obtain ⟨k, v⟩ := kv
    by_cases hk : k = f
    · simp [eraseAllKey, hk, ih]
    · simp [eraseAllKey, hk, lookupLast, ih]

theorem lookupLast_eraseAllKey_ne (f g : String) (kvs : List (String × Json))
    (h : g ≠ f) : lookupLast (eraseAllKey f kvs) g = lookupLast kvs g := by
  induction kvs with
  | nil => rfl
  | cons kv r ih =>
    obtain ⟨k, v⟩ := kv
    by_cases hk : k = f
    · have hfg : ¬ (f = g) := fun hh => h hh.symm
      simp only [eraseAllKey, hk, if_pos rfl, lookupLast, ih]
      cases hl : lookupLast r g <;> simp [hl, hfg, ih]
    · simp [eraseAllKey, hk, lookupLast, ih]

/-! Concrete fixtures used to instantiate the claim theorems. -/

/-- An authenticated POST request with the credential in the custom header
and a nonempty prompt. -/
def exReq : Request :=
  { method := "POST"
  , headers := { x_api_key := some "k", authorization := none }
  , query := { api_key := none, prompt := none, q := none }
  , body := { prompt := some "fix my sink" } }

/-- A configuration with both credentials set. -/
def exCfg : Config := { API_KEY := some "k", GEMINI_API_KEY := some "g" }

/-- C1: evaluation of the handler at a parsed upstream object whose steps
field is a truthy non-array value. The request is answered with status 200
by the full-success path, and data.steps is the string "abc", not a
sequence: the success path has no Array.isArray guard, so the stated
invariant fails for this upstream output. -/
theorem c1_success_steps_not_sequence :
    (handler exCfg exReq
      (.ok ⟨"\x7b\"title\":\"T\",\"summary\":\"S\",\"steps\":\"abc\"\x7d", none⟩) "ts").status = 200 ∧
    getFieldOpt (handler exCfg exReq
      (.ok ⟨"\x7b\"title\":\"T\",\"summary\":\"S\",\"steps\":\"abc\"\x7d", none⟩) "ts").body "success" =
      some (.bool true) ∧
    dataField (handler exCfg exReq
      (.ok ⟨"\x7b\"title\":\"T\",\"summary\":\"S\",\"steps\":\"abc\"\x7d", none⟩) "ts") "steps" =
      some (.str "abc") ∧
    isArrJ (.str "abc") = false :=
  ⟨rfl, rfl, rfl, rfl⟩

/-- C5: for the fenced upstream output, the fence markers are stripped, the
cleaned text parses, the required-field check passes, and the success
response carries steps ["a","b"], tips [], timeEstimate "Unknown" and
difficulty "unknown". -/
theorem c5_fenced_output_success :
    cleanText "```json\n\x7b\"title\":\"T\",\"summary\":\"S\",\"steps\":[\"a\",\"b\"]\x7d\n```" =
      "\x7b\"title\":\"T\",\"summary\":\"S\",\"steps\":[\"a\",\"b\"]\x7d" ∧
    jsonParse (cleanText "```json\n\x7b\"title\":\"T\",\"summary\":\"S\",\"steps\":[\"a\",\"b\"]\x7d\n```") =
      some (.obj [("title", .str "T"), ("summary", .str "S"),
        ("steps", .arr [.str "a", .str "b"])]) ∧
    requiredMissing (.obj [("title", .str "T"), ("summary", .str "S"),
      ("steps", .arr [.str "a", .str "b"])]) = [] ∧
    handler exCfg exReq
      (.ok ⟨"```json\n\x7b\"title\":\"T\",\"summary\":\"S\",\"steps\":[\"a\",\"b\"]\x7d\n```", none⟩) "ts" =
      successResp (.obj [("title", .str "T"), ("summary", .str "S"),
        ("steps", .arr [.str "a", .str "b"])]) "ts" ∧
    (handler exCfg exReq
      (.ok ⟨"```json\n\x7b\"title\":\"T\",\"summary\":\"S\",\"steps\":[\"a\",\"b\"]\x7d\n```", none⟩) "ts").status = 200 ∧
    dataField (handler exCfg exReq
      (.ok ⟨"```json\n\x7b\"title\":\"T\",\"summary\":\"S\",\"steps\":[\"a\",\"b\"]\x7d\n```", none⟩) "ts") "steps" =
      some (.arr [.str "a", .str "b"]) ∧
    dataField (handler exCfg exReq
      (.ok ⟨"```json\n\x7b\"title\":\"T\",\"summary\":\"S\",\"steps\":[\"a\",\"b\"]\x7d\n```", none⟩) "ts") "tips" =
      some (.arr []) ∧
    dataField (handler exCfg exReq
      (.ok ⟨"```json\n\x7b\"title\":\"T\",\"summary\":\"S\",\"steps\":[\"a\",\"b\"]\x7d\n```", none⟩) "ts") "timeEstimate" =
      some (.str "Unknown") ∧
    dataField (handler exCfg exReq
      (.ok ⟨"```json\n\x7b\"title\":\"T\",\"summary\":\"S\",\"steps\":[\"a\",\"b\"]\x7d\n```", none⟩) "ts") "difficulty" =
      some (.str "unknown") :=
  ⟨rfl, rfl, rfl, rfl, rfl, rfl, rfl, rfl, rfl⟩

instance authOkDecidable (cfg : Config) (req : Request) : Decidable (authOk cfg req) := by
  unfold authOk
  infer_instance

/-- C3: for every authenticated request with a nonempty prompt whose
upstream text does not short-circuit on a block reason and whose cleaned
text fails the strict JSON parse, the handler answers 200 with the degraded
payload: placeholder title and summary, empty steps and tips, timeEstimate
"Unknown", difficulty "unknown", the raw text under content, and a
metadata parseError; it never returns an error status for this case. -/
theorem c3_parse_failure_degrades (cfg : Config) (req : Request)
    (up : Except String UpstreamResponse) (now : String) (r : UpstreamResponse)
    (hauth : authOk cfg req) (hup : up = .ok r)
    (hnb : ¬ (r.text = "" ∧ strTruthy r.blockReason = true))
    (hparse : jsonParse (cleanText r.text) = none) :
    handler cfg req up now = parseFailResp r.text now ∧
    (handler cfg req up now).status = 200 ∧
    getFieldOpt (handler cfg req up now).body "success" = some (.bool true) ∧
    dataField (handler cfg req up now) "title" = some (.str "QuickFix Response") ∧
    dataField (handler cfg req up now) "summary" = some (.str "Generated response") ∧
    dataField (handler cfg req up now) "steps" = some (.arr []) ∧
    dataField (handler cfg req up now) "tips" = some (.arr []) ∧
    dataField (handler cfg req up now) "timeEstimate" = some (.str "Unknown") ∧
    dataField (handler cfg req up now) "difficulty" = some (.str "unknown") ∧
    dataField (handler cfg req up now) "content" = some (.str r.text) ∧
    metaField (handler cfg req up now) "parseError" =
      some (.str "Response was not valid JSON") := by
  have h1 : handler cfg req up now = parseFailResp r.text now := by
    rw [handler_reaches cfg req up now hauth, hup]
    show exceptToResp (tryStage r now) = parseFailResp r.text now
    unfold tryStage
    rw [if_neg hnb]
    simp [parseStage, hparse, exceptToResp]
  refine ⟨h1, ?_, ?_, ?_, ?_, ?_, ?_, ?_, ?_, ?_, ?_⟩ <;> rw [h1] <;> rfl

/-- Witness for C3 at the upstream output "not json at all". -/
theorem c3_parse_failure_degrades_witness :
    (authOk exCfg exReq ∧
      jsonParse (cleanText "not json at all") = none) ∧
    handler exCfg exReq (.ok ⟨"not json at all", none⟩) "ts" =
      parseFailResp "not json at all" "ts" ∧
    dataField (handler exCfg exReq (.ok ⟨"not json at all", none⟩) "ts") "content" =
      some (.str "not json at all") ∧
    dataField (handler exCfg exReq (.ok ⟨"not json at all", none⟩) "ts") "steps" =
      some (.arr []) ∧
    metaField (handler exCfg exReq (.ok ⟨"not json at all", none⟩) "ts") "parseError" =
      some (.str "Response was not valid JSON") := by
  have h := c3_parse_failure_degrades exCfg exReq (.ok ⟨"not json at all", none⟩) "ts"
    ⟨"not json at all", none⟩ (by decide) rfl (by decide) rfl
  exact ⟨⟨by decide, rfl⟩, h.1, h.2.2.2.2.2.2.2.2.2.1, h.2.2.2.2.2.1, h.2.2.2.2.2.2.2.2.2.2⟩

/-- C4 counterexample: the parsed upstream object
{"title":"T","steps":"abc"} is missing the required field summary, so the
premise of the claim holds and steps is present (and truthy), yet the response
carries data.steps = [] rather than the present value "abc": a present
field is not always used as-is. -/
theorem c4_present_field_not_as_is :
    jsonParse (cleanText "\x7b\"title\":\"T\",\"steps\":\"abc\"\x7d") =
      some (.obj [("title", .str "T"), ("steps", .str "abc")]) ∧
    getFieldOpt (.obj [("title", .str "T"), ("steps", .str "abc")]) "steps" =
      some (.str "abc") ∧
    requiredMissing (.obj [("title", .str "T"), ("steps", .str "abc")]) = ["summary"] ∧
    (handler exCfg exReq (.ok ⟨"\x7b\"title\":\"T\",\"steps\":\"abc\"\x7d", none⟩) "ts").status = 200 ∧
    dataField (handler exCfg exReq
      (.ok ⟨"\x7b\"title\":\"T\",\"steps\":\"abc\"\x7d", none⟩) "ts") "steps" = some (.arr []) ∧
    Json.arr [] ≠ Json.str "abc" :=
  ⟨rfl, rfl, rfl, rfl, rfl, fun h => Json.noConfusion h⟩

/-- C4 amended: for every parsed upstream object with at least one required
field absent or falsy, the handler answers 200 where title, summary,
timeEstimate and difficulty are used as-is when truthy and get their named
defaults otherwise, steps and tips are used as-is only when they are arrays
and become the empty sequence otherwise, the raw text is attached as
data.content, and metadata lists exactly the required fields that are
absent or falsy. -/
theorem c4_missing_fields_fallback (cfg : Config) (req : Request)
    (up : Except String UpstreamResponse) (now : String) (r : UpstreamResponse)
    (kvs : List (String × Json))
    (hauth : authOk cfg req) (hup : up = .ok r)
    (hnb : ¬ (r.text = "" ∧ strTruthy r.blockReason = true))
    (hparse : jsonParse (cleanText r.text) = some (.obj kvs))
    (hmiss : requiredMissing (.obj kvs) ≠ []) :
    handler cfg req up now =
      missingResp (.obj kvs) r.text now (requiredMissing (.obj kvs)) ∧
    (handler cfg req up now).status = 200 ∧
    dataField (handler cfg req up now) "title" =
      some (jsOrJ (lookupLast kvs "title") (.str "QuickFix Response")) ∧
    dataField (handler cfg req up now) "summary" =
      some (jsOrJ (lookupLast kvs "summary") (.str "Generated response")) ∧
    dataField (handler cfg req up now) "steps" =
      some (asArr (lookupLast kvs "steps")) ∧
    dataField (handler cfg req up now) "tips" =
      some (asArr (lookupLast kvs "tips")) ∧
    dataField (handler cfg req up now) "timeEstimate" =
      some (jsOrJ (lookupLast kvs "timeEstimate") (.str "Unknown")) ∧
    dataField (handler cfg req up now) "difficulty" =
      some (jsOrJ (lookupLast kvs "difficulty") (.str "unknown")) ∧
    dataField (handler cfg req up now) "content" = some (.str r.text) ∧
    metaField (handler cfg req up now) "warning" =
      some (.str ("Missing fields: " ++
        String.intercalate ", " (requiredMissing (.obj kvs)))) := by
  have hlen : 0 < (requiredMissing (.obj kvs)).length := List.length_pos.mpr hmiss
  have h1 : handler cfg req up now =
      missingResp (.obj kvs) r.text now (requiredMissing (.obj kvs)) := by
    rw [handler_reaches cfg req up now hauth, hup]
    show exceptToResp (tryStage r now) = _
    unfold tryStage
    rw [if_neg hnb]
    simp [parseStage, hparse, afterParse, isNullJ, hlen, exceptToResp]
  refine ⟨h1, ?_, ?_, ?_, ?_, ?_, ?_, ?_, ?_, ?_⟩ <;> rw [h1] <;> rfl

/-- Witness for the amended C4 at the upstream output
{"title":"T","steps":["a"]}: summary is missing, so it defaults and the
warning names it, while the present fields are kept. -/
theorem c4_missing_fields_fallback_witness :
    (authOk exCfg exReq ∧
      jsonParse (cleanText "\x7b\"title\":\"T\",\"steps\":[\"a\"]\x7d") =
        some (.obj [("title", .str "T"), ("steps", .arr [.str "a"])]) ∧
      requiredMissing (.obj [("title", .str "T"), ("steps", .arr [.str "a"])]) =
        ["summary"]) ∧
    (handler exCfg exReq (.ok ⟨"\x7b\"title\":\"T\",\"steps\":[\"a\"]\x7d", none⟩) "ts").status = 200 ∧
    dataField (handler exCfg exReq
      (.ok ⟨"\x7b\"title\":\"T\",\"steps\":[\"a\"]\x7d", none⟩) "ts") "summary" =
      some (jsOrJ (lookupLast [("title", Json.str "T"), ("steps", Json.arr [Json.str "a"])] "summary")
        (.str "Generated response")) ∧
    metaField (handler exCfg exReq
      (.ok ⟨"\x7b\"title\":\"T\",\"steps\":[\"a\"]\x7d", none⟩) "ts") "warning" =
      some (.str ("Missing fields: " ++ String.intercalate ", "
        (requiredMissing (.obj [("title", .str "T"), ("steps", .arr [.str "a"])])))) := by
  have h := c4_missing_fields_fallback exCfg exReq
    (.ok ⟨"\x7b\"title\":\"T\",\"steps\":[\"a\"]\x7d", none⟩) "ts"
    ⟨"\x7b\"title\":\"T\",\"steps\":[\"a\"]\x7d", none⟩
    [("title", .str "T"), ("steps", .arr [.str "a"])]
    (by decide) rfl (by decide) rfl (by decide)
  exact ⟨⟨by decide, rfl, rfl⟩, h.2.1, h.2.2.2.1, h.2.2.2.2.2.2.2.2.2⟩

/-- Exhaustive top-level branches of the handler. -/
theorem handler_eq_cases (cfg : Config) (req : Request)
    (up : Except String UpstreamResponse) (now : String) :
    handler cfg req up now = resp405 ∨ handler cfg req up now = resp500key ∨
    handler cfg req up now = resp401 ∨ handler cfg req up now = resp403 ∨
    handler cfg req up now = postAuth cfg req up now := by
  unfold handler
  split
  · exact Or.inl rfl
  · split
    · exact Or.inr (Or.inl rfl)
    · split
      · exact Or.inr (Or.inr (Or.inl rfl))
      · split
        · exact Or.inr (Or.inr (Or.inr (Or.inl rfl)))
        · exact Or.inr (Or.inr (Or.inr (Or.inr rfl)))

/-- Exhaustive branches of the post-authentication stage. -/
theorem postAuth_cases (cfg : Config) (req : Request)
    (up : Except String UpstreamResponse) (now : String) :
    postAuth cfg req up now = resp500gemini ∨
    postAuth cfg req up now = resp400usage ∨
    postAuth cfg req up now = handleUpstream up now := by
  unfold postAuth
  split
  · exact Or.inl rfl
  · split
    · exact Or.inr (Or.inl rfl)
    · exact Or.inr (Or.inr rfl)

/-- The upstream stage yields either the catch-clause body or a response
with status 200 or 400. -/
theorem handleUpstream_catch_or (up : Except String UpstreamResponse) (now : String) :
    (∃ m, handleUpstream up now = catchResp m) ∨
    ((handleUpstream up now).status = 200 ∨ (handleUpstream up now).status = 400) := by
  unfold handleUpstream
  cases up with
  | error m => exact Or.inl ⟨m, rfl⟩
  | ok r =>
    cases h : tryStage r now with
    | error m =>
      exact Or.inl ⟨m, by simp [exceptToResp, h]⟩
    | ok resp =>
      right
      rcases tryStage_ok_status r now resp h with h2 | h2 <;> simp [exceptToResp, h, h2]

/-- A parse-stage result that is not a throw has status 200. -/
theorem parseStage_ok_status (text now : String) (resp : Response)
    (h : parseStage text now = .ok resp) : resp.status = 200 := by
  unfold parseStage afterParse at h
  split at h
  · cases h
    simp [parseFailResp]
  · split at h
    · cases h
    · split at h
      · cases h
        simp [missingResp]
      · cases h
        simp [successResp]

/-- The parse stage, run to a response through the catch clause, answers
200 or 500, never 400. -/
theorem parseStage_status (text now : String) :
    (exceptToResp (parseStage text now)).status = 200 ∨
    (exceptToResp (parseStage text now)).status = 500 := by
  cases h : parseStage text now with
  | error m => simp [exceptToResp, h, catchResp]
  | ok resp =>
    left
    simp [exceptToResp, h, parseStage_ok_status text now resp h]

/-- C6: when the exception handler around composition and invocation is
taken (the upstream call throws), the handler answers 500 with success
false, error "Failed to generate response", details carrying the failure
message, and no data object; and over all inputs, the catch clause is the
only way a response has status 500 together with success false in its
body. -/
theorem c6_exception_path (cfg : Config) (req : Request) (now msg : String)
    (hauth : authOk cfg req) :
    handler cfg req (.error msg) now = catchResp msg ∧
    (handler cfg req (.error msg) now).status = 500 ∧
    getFieldOpt (handler cfg req (.error msg) now).body "success" = some (.bool false) ∧
    getFieldOpt (handler cfg req (.error msg) now).body "error" =
      some (.str "Failed to generate response") ∧
    getFieldOpt (handler cfg req (.error msg) now).body "details" = some (.str msg) ∧
    getFieldOpt (handler cfg req (.error msg) now).body "data" = none ∧
    (∀ (cfg2 : Config) (req2 : Request) (up2 : Except String UpstreamResponse)
      (now2 : String),
      (handler cfg2 req2 up2 now2).status = 500 →
      getFieldOpt (handler cfg2 req2 up2 now2).body "success" = some (.bool false) →
      ∃ m, handler cfg2 req2 up2 now2 = catchResp m) := by
  have h1 : handler cfg req (.error msg) now = catchResp msg := by
    rw [handler_reaches cfg req (.error msg) now hauth]
    rfl
  refine ⟨h1, by rw [h1]; rfl, by rw [h1]; rfl, by rw [h1]; rfl, by rw [h1]; rfl,
    by rw [h1]; rfl, ?_⟩
  intro cfg2 req2 up2 now2 h5 hs
  rcases handler_eq_cases cfg2 req2 up2 now2 with h | h | h | h | h
  · rw [h] at h5
    exact absurd h5 (by decide)
  · rw [h] at hs
    exact absurd hs (by simp [resp500key, getFieldOpt, lookupLast])
  · rw [h] at h5
    exact absurd h5 (by decide)
  · rw [h] at h5
    exact absurd h5 (by decide)
  · rcases postAuth_cases cfg2 req2 up2 now2 with p | p | p
    · rw [h, p] at hs
      exact absurd hs (by simp [resp500gemini, getFieldOpt, lookupLast])
    · rw [h, p] at h5
      exact absurd h5 (by simp [resp400usage])
    · rcases handleUpstream_catch_or up2 now2 with ⟨m, hc⟩ | hst
      · exact ⟨m, by rw [h, p, hc]⟩
      · rw [h, p] at h5
        rcases hst with h2 | h2 <;> rw [h2] at h5 <;> exact absurd h5 (by decide)

/-- Witness for C6 with a thrown upstream error "network down". -/
theorem c6_exception_path_witness :
    authOk exCfg exReq ∧
    handler exCfg exReq (.error "network down") "ts" = catchResp "network down" ∧
    getFieldOpt (handler exCfg exReq (.error "network down") "ts").body "details" =
      some (.str "network down") ∧
    getFieldOpt (handler exCfg exReq (.error "network down") "ts").body "data" = none := by
  have h := c6_exception_path exCfg exReq "ts" "network down" (by decide)
  exact ⟨by decide, h.1, h.2.2.2.2.1, h.2.2.2.2.2.1⟩

/-- C7: under the authentication and prompt hypotheses, with an upstream
answer, the handler short-circuits before parsing with a 400 block response
exactly when the text is empty and a block reason is reported; otherwise it
proceeds to the parse stage. -/
theorem c7_block_iff (cfg : Config) (req : Request) (now : String)
    (r : UpstreamResponse) (hauth : authOk cfg req) :
    ((handler cfg req (.ok r) now).status = 400 ↔
      (r.text = "" ∧ strTruthy r.blockReason = true)) ∧
    ((r.text = "" ∧ strTruthy r.blockReason = true) →
      handler cfg req (.ok r) now = blockResp (r.blockReason.getD "")) ∧
    (¬ (r.text = "" ∧ strTruthy r.blockReason = true) →
      handler cfg req (.ok r) now = exceptToResp (parseStage r.text now)) := by
  have h0 : handler cfg req (.ok r) now = exceptToResp (tryStage r now) := by
    rw [handler_reaches cfg req (.ok r) now hauth]
    rfl
  by_cases hc : r.text = "" ∧ strTruthy r.blockReason = true
  · have hb : handler cfg req (.ok r) now = blockResp (r.blockReason.getD "") := by
      rw [h0]
      unfold tryStage
      rw [if_pos hc]
      rfl
    refine ⟨?_, fun _ => hb, fun hn => absurd hc hn⟩
    rw [hb]
    simp [blockResp, hc]
  · have hp : handler cfg req (.ok r) now = exceptToResp (parseStage r.text now) := by
      rw [h0]
      unfold tryStage
      rw [if_neg hc]
    refine ⟨?_, fun hyes => absurd hyes hc, fun _ => hp⟩
    rw [hp]
    constructor
    · intro h4
      rcases parseStage_status r.text now with h2 | h2 <;> rw [h2] at h4 <;>
        exact absurd h4 (by decide)
    · intro hyes
      exact absurd hyes hc

/-- Witness for C7: a blocked upstream answer (empty text with reason
"SAFETY") yields the 400 block response, and a nonempty answer proceeds to
the parse stage. -/
theorem c7_block_iff_witness :
    authOk exCfg exReq ∧
    handler exCfg exReq (.ok ⟨"", some "SAFETY"⟩) "ts" = blockResp "SAFETY" ∧
    (handler exCfg exReq (.ok ⟨"", some "SAFETY"⟩) "ts").status = 400 ∧
    handler exCfg exReq (.ok ⟨"hello", some "SAFETY"⟩) "ts" =
      exceptToResp (parseStage "hello" "ts") := by
  have h1 := c7_block_iff exCfg exReq "ts" ⟨"", some "SAFETY"⟩ (by decide)
  have h2 := c7_block_iff exCfg exReq "ts" ⟨"hello", some "SAFETY"⟩ (by decide)
  refine ⟨by decide, h1.2.1 (by decide), ?_, h2.2.2 (by decide)⟩
  rw [h1.2.1 (by decide)]
  rfl

/-- C8: for every request with a valid method and passing authentication
whose extracted task text is absent or empty (POST body prompt, or GET
prompt/q query parameter), the handler answers 400 with the usage guidance,
and the response does not depend on the upstream outcome at all — the
completion capability is never invoked. -/
theorem c8_empty_prompt_usage (cfg : Config) (req : Request) (now : String)
    (hm : req.method = "GET" ∨ req.method = "POST")
    (hk : strTruthy cfg.API_KEY = true)
    (_hp : strTruthy (providedApiKey req) = true)
    (he : providedApiKey req = cfg.API_KEY)
    (hg : strTruthy cfg.GEMINI_API_KEY = true)
    (hpr : strTruthy (extractPrompt req) = false) :
    ∀ up : Except String UpstreamResponse,
      handler cfg req up now = resp400usage ∧
      (handler cfg req up now).status = 400 := by
  intro up
  have h1 : handler cfg req up now = resp400usage := by
    unfold handler postAuth
    rcases hm with hm | hm <;> simp [hm, hk, he, hg, hpr]
  exact ⟨h1, by rw [h1]; rfl⟩

/-- An authenticated POST request whose prompt is the empty string. -/
def emptyPromptReq : Request :=
  { method := "POST"
  , headers := { x_api_key := some "k", authorization := none }
  , query := { api_key := none, prompt := none, q := none }
  , body := { prompt := some "" } }

/-- Witness for C8: a POST request with a correct header credential and an
empty-string prompt gets the 400 usage response whatever the upstream would
have answered. -/
theorem c8_empty_prompt_usage_witness :
    (strTruthy (extractPrompt emptyPromptReq) = false ∧
      strTruthy (providedApiKey emptyPromptReq) = true) ∧
    handler exCfg emptyPromptReq (.ok ⟨"\x7b\"title\":\"T\"\x7d", none⟩) "ts" = resp400usage ∧
    handler exCfg emptyPromptReq (.error "network down") "ts" = resp400usage := by
  have h := c8_empty_prompt_usage exCfg emptyPromptReq "ts" (Or.inr rfl) rfl rfl rfl rfl rfl
  exact ⟨⟨rfl, rfl⟩, (h (.ok ⟨"\x7b\"title\":\"T\"\x7d", none⟩)).1, (h (.error "network down")).1⟩

/-- C9: with a configured caller credential and a valid method, an absent
credential yields exactly the 401 response (whose body enumerates the
accepted channels), a provided-but-mismatching credential yields exactly
the 403 response, and conversely a 403 only arises from a provided
mismatching credential and a 401 only from an absent one — the outcomes
are mutually exclusive. -/
theorem c9_missing_versus_wrong (cfg : Config) (req : Request)
    (up : Except String UpstreamResponse) (now : String)
    (hm : req.method = "GET" ∨ req.method = "POST")
    (hk : strTruthy cfg.API_KEY = true) :
    (strTruthy (providedApiKey req) = false → handler cfg req up now = resp401) ∧
    (strTruthy (providedApiKey req) = true → providedApiKey req ≠ cfg.API_KEY →
      handler cfg req up now = resp403) ∧
    ((handler cfg req up now).status = 403 →
      strTruthy (providedApiKey req) = true ∧ providedApiKey req ≠ cfg.API_KEY) ∧
    ((handler cfg req up now).status = 401 → strTruthy (providedApiKey req) = false) := by
  have habs : strTruthy (providedApiKey req) = false →
      handler cfg req up now = resp401 := by
    intro hpf
    unfold handler
    rcases hm with hm | hm <;> simp [hm, hk, hpf]
  have hwrong : strTruthy (providedApiKey req) = true →
      providedApiKey req ≠ cfg.API_KEY → handler cfg req up now = resp403 := by
    intro hpt hne
    unfold handler
    rcases hm with hm | hm <;> simp [hm, hk, hpt, hne]
  have hpass : strTruthy (providedApiKey req) = true →
      providedApiKey req = cfg.API_KEY →
      handler cfg req up now = postAuth cfg req up now := by
    intro hpt heq
    unfold handler
    rcases hm with hm | hm <;> simp [hm, hk, hpt, heq]
  refine ⟨habs, hwrong, ?_, ?_⟩
  · intro h403
    cases hpf : strTruthy (providedApiKey req) with
    | false =>
      rw [habs hpf] at h403
      exact absurd h403 (by decide)
    | true =>
      by_cases heq : providedApiKey req = cfg.API_KEY
      · rw [hpass hpf heq] at h403
        rcases postAuth_status cfg req up now with h2 | h2 | h2 <;> rw [h2] at h403 <;>
          exact absurd h403 (by decide)
      · exact ⟨rfl, heq⟩
  · intro h401
    cases hpf : strTruthy (providedApiKey req) with
    | false => rfl
    | true =>
      by_cases heq : providedApiKey req = cfg.API_KEY
      · rw [hpass hpf heq] at h401
        rcases postAuth_status cfg req up now with h2 | h2 | h2 <;> rw [h2] at h401 <;>
          exact absurd h401 (by decide)
      · rw [hwrong hpf heq] at h401
        exact absurd h401 (by decide)

/-- A GET request carrying no credential on any channel. -/
def noCredReq : Request :=
  { method := "GET"
  , headers := { x_api_key := none, authorization := none }
  , query := { api_key := none, prompt := some "fix my sink", q := none }
  , body := { prompt := none } }

/-- A GET request with a wrong credential in the custom header. -/
def wrongCredReq : Request :=
  { method := "GET"
  , headers := { x_api_key := some "nope", authorization := none }
  , query := { api_key := none, prompt := some "fix my sink", q := none }
  , body := { prompt := none } }

/-- Witness for C9: with the configured key "k", the credential-free
request gets the 401 response and the wrong-credential request gets the
403 response. -/
theorem c9_missing_versus_wrong_witness :
    (strTruthy exCfg.API_KEY = true ∧
      strTruthy (providedApiKey noCredReq) = false ∧
      strTruthy (providedApiKey wrongCredReq) = true) ∧
    handler exCfg noCredReq (.ok ⟨"x", none⟩) "ts" = resp401 ∧
    handler exCfg wrongCredReq (.ok ⟨"x", none⟩) "ts" = resp403 := by
  have h1 := c9_missing_versus_wrong exCfg noCredReq (.ok ⟨"x", none⟩) "ts"
    (Or.inl rfl) rfl
  have h2 := c9_missing_versus_wrong exCfg wrongCredReq (.ok ⟨"x", none⟩) "ts"
    (Or.inl rfl) rfl
  exact ⟨⟨rfl, rfl, rfl⟩, h1.1 rfl, h2.2.1 rfl (by decide)⟩

/-- A POST request whose only credential is the api_key query parameter. -/
def postQueryKeyReq : Request :=
  { method := "POST"
  , headers := { x_api_key := none, authorization := none }
  , query := { api_key := some "k", prompt := none, q := none }
  , body := { prompt := some "fix my sink" } }

/-- C2 counterexample: a POST request whose only credential is the api_key
query parameter is authenticated (the request proceeds all the way to a 200
answer), not treated as credential-less with a 401: the query-parameter
channel is read for every method. -/
theorem c2_post_query_key_not_401 :
    providedApiKey postQueryKeyReq = some "k" ∧
    (handler exCfg postQueryKeyReq (.ok ⟨"not json at all", none⟩) "ts").status = 200 ∧
    (handler exCfg postQueryKeyReq (.ok ⟨"not json at all", none⟩) "ts").status ≠ 401 :=
  ⟨rfl, rfl, by decide⟩

/-- C2 amended: the caller credential is accepted from exactly three
channels with precedence x-api-key header, then Authorization Bearer
header, then api_key query parameter, for every method: a POST request
whose only credential is the api_key query parameter has that value used
as its credential — authentication passes (neither 401 nor 403) when it
matches the configured key and fails with 403 when it does not. -/
theorem c2_query_credential_any_method (cfg : Config) (req : Request)
    (up : Except String UpstreamResponse) (now : String)
    (hm : req.method = "POST")
    (hx : strTruthy req.headers.x_api_key = false)
    (ha : strTruthy (Option.map stripBearer req.headers.authorization) = false)
    (hq : strTruthy req.query.api_key = true)
    (hk : strTruthy cfg.API_KEY = true) :
    (∀ r2 : Request, strTruthy r2.headers.x_api_key = true →
      providedApiKey r2 = r2.headers.x_api_key) ∧
    (∀ r2 : Request, strTruthy r2.headers.x_api_key = false →
      strTruthy (Option.map stripBearer r2.headers.authorization) = true →
      providedApiKey r2 = Option.map stripBearer r2.headers.authorization) ∧
    (∀ r2 : Request, strTruthy r2.headers.x_api_key = false →
      strTruthy (Option.map stripBearer r2.headers.authorization) = false →
      providedApiKey r2 = r2.query.api_key) ∧
    providedApiKey req = req.query.api_key ∧
    (req.query.api_key = cfg.API_KEY →
      (handler cfg req up now).status ≠ 401 ∧ (handler cfg req up now).status ≠ 403) ∧
    (req.query.api_key ≠ cfg.API_KEY → handler cfg req up now = resp403) := by
  have p1 : ∀ r2 : Request, strTruthy r2.headers.x_api_key = true →
      providedApiKey r2 = r2.headers.x_api_key := by
    intro r2 h
    simp [providedApiKey, jsOrOpt, h]
  have p2 : ∀ r2 : Request, strTruthy r2.headers.x_api_key = false →
      strTruthy (Option.map stripBearer r2.headers.authorization) = true →
      providedApiKey r2 = Option.map stripBearer r2.headers.authorization := by
    intro r2 h1 h2
    simp [providedApiKey, jsOrOpt, h1, h2]
  have p3 : ∀ r2 : Request, strTruthy r2.headers.x_api_key = false →
      strTruthy (Option.map stripBearer r2.headers.authorization) = false →
      providedApiKey r2 = r2.query.api_key := by
    intro r2 h1 h2
    simp [providedApiKey, jsOrOpt, h1, h2]
  have p4 : providedApiKey req = req.query.api_key := p3 req hx ha
  have hpt : strTruthy (providedApiKey req) = true := by
    rw [p4]
    exact hq
  refine ⟨p1, p2, p3, p4, ?_, ?_⟩
  · intro heq
    have hpe : providedApiKey req = cfg.API_KEY := p4.trans heq
    have hpass : handler cfg req up now = postAuth cfg req up now := by
      unfold handler
      simp [hm, hk, hpt, hpe]
    refine ⟨?_, ?_⟩ <;> rw [hpass] <;>
      rcases postAuth_status cfg req up now with h2 | h2 | h2 <;> omega
  · intro hne
    have hne2 : providedApiKey req ≠ cfg.API_KEY := by
      rw [p4]
      exact hne
    unfold handler
    simp [hm, hk, hpt, hne2]

/-- Witness for the amended C2: the POST request with only the query
credential "k" against configured key "k" reaches the prompt handling
(status 200 here), neither 401 nor 403. -/
theorem c2_query_credential_any_method_witness :
    (postQueryKeyReq.method = "POST" ∧
      strTruthy postQueryKeyReq.headers.x_api_key = false ∧
      strTruthy postQueryKeyReq.query.api_key = true ∧
      strTruthy exCfg.API_KEY = true) ∧
    providedApiKey postQueryKeyReq = postQueryKeyReq.query.api_key ∧
    (handler exCfg postQueryKeyReq (.ok ⟨"not json at all", none⟩) "ts").status ≠ 401 ∧
    (handler exCfg postQueryKeyReq (.ok ⟨"not json at all", none⟩) "ts").status ≠ 403 := by
  have h := c2_query_credential_any_method exCfg postQueryKeyReq
    (.ok ⟨"not json at all", none⟩) "ts" rfl rfl rfl rfl rfl
  exact ⟨⟨rfl, rfl, rfl, rfl⟩, h.2.2.2.1,
    (h.2.2.2.2.1 rfl).1, (h.2.2.2.2.1 rfl).2⟩

/-! Congruence of the fallback path under removal of a falsy-bound key,
used for C10. -/

theorem optTruthy_lookup_erase (kvs : List (String × Json)) (f : String) (v : Json)
    (hl : lookupLast kvs f = some v) (hv : jsTruthy v = false) :
    ∀ g : String,
      optTruthy (lookupLast (eraseAllKey f kvs) g) = optTruthy (lookupLast kvs g) := by
  intro g
  by_cases hg : g = f
  · subst hg
    rw [lookupLast_eraseAllKey_self, hl]
    simp [optTruthy, hv]
  · rw [lookupLast_eraseAllKey_ne f g kvs hg]

theorem jsOrJ_lookup_erase (kvs : List (String × Json)) (f : String) (v : Json)
    (hl : lookupLast kvs f = some v) (hv : jsTruthy v = false) :
    ∀ (g : String) (d : Json),
      jsOrJ (lookupLast (eraseAllKey f kvs) g) d = jsOrJ (lookupLast kvs g) d := by
  intro g d
  by_cases hg : g = f
  · subst hg
    rw [lookupLast_eraseAllKey_self, hl]
    simp [jsOrJ, hv]
  · rw [lookupLast_eraseAllKey_ne f g kvs hg]

theorem asArr_lookup_erase (kvs : List (String × Json)) (f : String) (v : Json)
    (hl : lookupLast kvs f = some v) (hv : jsTruthy v = false) :
    ∀ g : String,
      asArr (lookupLast (eraseAllKey f kvs) g) = asArr (lookupLast kvs g) := by
  intro g
  by_cases hg : g = f
  · subst hg
    rw [lookupLast_eraseAllKey_self, hl]
    cases v <;> simp_all [asArr, jsTruthy]
  · rw [lookupLast_eraseAllKey_ne f g kvs hg]

theorem requiredMissing_erase (kvs : List (String × Json)) (f : String) (v : Json)
    (hl : lookupLast kvs f = some v) (hv : jsTruthy v = false) :
    requiredMissing (.obj (eraseAllKey f kvs)) = requiredMissing (.obj kvs) := by
  unfold requiredMissing
  simp [getFieldOpt, optTruthy_lookup_erase kvs f v hl hv]

theorem missingResp_erase (kvs : List (String × Json)) (f : String) (v : Json)
    (hl : lookupLast kvs f = some v) (hv : jsTruthy v = false)
    (text now : String) (miss : List String) :
    missingResp (.obj (eraseAllKey f kvs)) text now miss =
      missingResp (.obj kvs) text now miss := by
  unfold missingResp
  simp [getFieldOpt, jsOrJ_lookup_erase kvs f v hl hv, asArr_lookup_erase kvs f v hl hv]

/-- The named default of a required field in the fallback path. -/
def requiredDefault (f : String) : Json :=
  if f = "title" then .str "QuickFix Response"
  else if f = "summary" then .str "Generated response"
  else .arr []

/-- C10: the required-field check tests JavaScript falsiness, not key
presence: a parsed object binding a required field to a falsy value is
routed to the missing-fields fallback path exactly as if the key were
absent — the parse stage output is unchanged by deleting the key — with
the field counted in the missing list, replaced by its named default in
the data object, and named in the metadata warning. -/
theorem c10_falsy_field_counts_missing (kvs : List (String × Json)) (f : String)
    (v : Json) (text now : String)
    (hf : f ∈ requiredFields) (hl : lookupLast kvs f = some v)
    (hv : jsTruthy v = false) :
    f ∈ requiredMissing (.obj kvs) ∧
    afterParse (.obj kvs) text now = afterParse (.obj (eraseAllKey f kvs)) text now ∧
    afterParse (.obj kvs) text now =
      .ok (missingResp (.obj kvs) text now (requiredMissing (.obj kvs))) ∧
    dataField (missingResp (.obj kvs) text now (requiredMissing (.obj kvs))) f =
      some (requiredDefault f) ∧
    metaField (missingResp (.obj kvs) text now (requiredMissing (.obj kvs))) "warning" =
      some (.str ("Missing fields: " ++
        String.intercalate ", " (requiredMissing (.obj kvs)))) := by
  have hmem : f ∈ requiredMissing (.obj kvs) := by
    simp [requiredMissing, List.mem_filter, getFieldOpt, hl, optTruthy, hv, hf]
  have hlen : 0 < (requiredMissing (.obj kvs)).length :=
    List.length_pos.mpr (List.ne_nil_of_mem hmem)
  have hmeq := requiredMissing_erase kvs f v hl hv
  have hroute : afterParse (.obj kvs) text now =
      .ok (missingResp (.obj kvs) text now (requiredMissing (.obj kvs))) := by
    simp [afterParse, isNullJ, hlen]
  have hlen2 : 0 < (requiredMissing (.obj (eraseAllKey f kvs))).length := by
    rw [hmeq]
    exact hlen
  have hroute2 : afterParse (.obj (eraseAllKey f kvs)) text now =
      .ok (missingResp (.obj (eraseAllKey f kvs)) text now
        (requiredMissing (.obj (eraseAllKey f kvs)))) := by
    simp [afterParse, isNullJ, hlen2]
  have hf3 : f = "title" ∨ f = "summary" ∨ f = "steps" := by
    simpa [requiredFields] using hf
  refine ⟨hmem, ?_, hroute, ?_, ?_⟩
  · rw [hroute, hroute2, hmeq, missingResp_erase kvs f v hl hv]
  · rcases hf3 with hf1 | hf1 | hf1 <;> subst hf1
    · show some (jsOrJ (lookupLast kvs "title") (.str "QuickFix Response")) = _
      rw [hl]
      simp [jsOrJ, hv, requiredDefault]
    · show some (jsOrJ (lookupLast kvs "summary") (.str "Generated response")) = _
      rw [hl]
      simp [jsOrJ, hv, requiredDefault]
    · show some (asArr (lookupLast kvs "steps")) = _
      rw [hl]
      cases v <;> simp_all [asArr, jsTruthy, requiredDefault]
  · rfl

/-- Witness for C10: the object binding title to the empty string (falsy
but present) is routed to the fallback path with title counted missing and
defaulted, exactly as if the key were deleted. -/
theorem c10_falsy_field_counts_missing_witness :
    ("title" ∈ requiredFields ∧
      lookupLast [("title", Json.str ""), ("summary", Json.str "S"),
        ("steps", Json.arr [Json.str "a"])] "title" = some (Json.str "") ∧
      jsTruthy (Json.str "") = false) ∧
    "title" ∈ requiredMissing (.obj [("title", Json.str ""), ("summary", Json.str "S"),
      ("steps", Json.arr [Json.str "a"])]) ∧
    afterParse (.obj [("title", Json.str ""), ("summary", Json.str "S"),
        ("steps", Json.arr [Json.str "a"])]) "raw" "ts" =
      afterParse (.obj (eraseAllKey "title" [("title", Json.str ""), ("summary", Json.str "S"),
        ("steps", Json.arr [Json.str "a"])])) "raw" "ts" ∧
    dataField (missingResp (.obj [("title", Json.str ""), ("summary", Json.str "S"),
        ("steps", Json.arr [Json.str "a"])]) "raw" "ts"
        (requiredMissing (.obj [("title", Json.str ""), ("summary", Json.str "S"),
          ("steps", Json.arr [Json.str "a"])]))) "title" =
      some (requiredDefault "title") := by
  have h := c10_falsy_field_counts_missing
    [("title", Json.str ""), ("summary", Json.str "S"), ("steps", Json.arr [Json.str "a"])]
    "title" (Json.str "") "raw" "ts" (by decide) rfl rfl
  exact ⟨⟨by decide, rfl, rfl⟩, h.1, h.2.1, h.2.2.2.1⟩

end QuickFix
